import Mathlib

/-
Verification of the TouchSensor gesture state machine from
src/Draggable/Sensors/TouchSensor/TouchSensor.js.

The sensor is embedded as a pure step function over an explicit state: the
instance fields of the TouchSensor object, the listeners it currently has
registered on the document and on individual elements, and the armed
long-press timers.  Native events (touchstart, touchmove, touchend,
touchcancel, scroll) and timer firings are the inputs; each step returns
the updated state together with the sensor events dispatched through
Sensor.trigger and the preventDefault and stopPropagation calls made, or
none when the handler would fault reading a missing touch point.
-/

namespace Draggable

/-- A touch point, carrying its page coordinates. -/
structure Touch where
  pageX : Int
  pageY : Int
deriving DecidableEq

/-- A native touch event as the handlers read it: the original target and
the two touch lists. -/
structure TouchEvent where
  target : Nat
  touches : List Touch
  changedTouches : List Touch
deriving DecidableEq

/-- Kinds of sensor events the TouchSensor dispatches. -/
inductive SensorEventType
  | start
  | move
  | stop
deriving DecidableEq

/-- Payload shared by DragStartSensorEvent, DragMoveSensorEvent and
DragStopSensorEvent: client coordinates, target, container. -/
structure SensorEvent where
  type : SensorEventType
  clientX : Int
  clientY : Int
  target : Option Nat
  container : Option Nat
deriving DecidableEq

/-- Modelled from the spec: the element tree the sensor works against.
Elements are numbered; parent gives each element's parent, depth bounds the
length of every ancestor chain, and the two height functions feed the
scrollable-ancestor predicate (layout height versus content height). -/
structure Dom where
  parent : Nat → Option Nat
  depth : Nat
  offsetHeight : Nat → Nat
  scrollHeight : Nat → Nat

/-- Ancestor chain of an element, the element itself first, cut off at the
given fuel. -/
def ancestorsFrom (d : Dom) : Nat → Nat → List Nat
  | 0, el => [el]
  | fuel + 1, el =>
      el :: (match d.parent el with
             | none => []
             | some p => ancestorsFrom d fuel p)

def ancestors (d : Dom) (el : Nat) : List Nat :=
  ancestorsFrom d d.depth el

/-- Modelled from the spec: the closest utility from shared/utils (that
file is not under src/), taking an element and a predicate and returning
the nearest matching ancestor, the element itself included, or none. -/
def closestPred (d : Dom) (el : Nat) (p : Nat → Bool) : Option Nat :=
  (ancestors d el).find? p

/-- Modelled from the spec: the closest utility applied to a list of
candidate containers. -/
def closestIn (d : Dom) (el : Nat) (containers : List Nat) : Option Nat :=
  closestPred d el (fun x => containers.contains x)

/-- Fixed environment of one run: the element tree, the registered
containers and options of the sensor, the window scroll offset, the
document.elementFromPoint lookup, and whether the listeners bound to a
container cancel a given start event. -/
structure World where
  dom : Dom
  containers : List Nat
  delay : Nat
  scrollX : Int
  scrollY : Int
  elementFromPoint : Int → Int → Option Nat
  cancelsStart : SensorEvent → Bool

/-- Closure created by onTouchHold and handed to setTimeout: it captures
the touchstart event and the matched container. -/
structure PendingHold where
  event : TouchEvent
  container : Nat
deriving DecidableEq

/-- Mutable state: the TouchSensor instance fields, the listeners the
sensor currently has registered (the touchstart listener installed by
attach is always present and not tracked), and the armed timers with their
ids. -/
structure TouchSensorState where
  currentContainer : Option Nat
  currentScrollableParent : Option Nat
  dragging : Bool
  tapTimeout : Option Nat
  timers : List (Nat × PendingHold)
  nextTimerId : Nat
  docScrollListener : Bool
  docTouchEndListener : Bool
  docTouchCancelListener : Bool
  docTouchMoveListener : Bool
  contextMenuOn : List Nat
  scrollOn : List Nat
deriving DecidableEq

def initialState : TouchSensorState :=
  ⟨none, none, false, none, [], 0, false, false, false, false, [], []⟩

/-- Observable effects of handling one input event. -/
structure Output where
  dispatched : List (Option Nat × SensorEvent)
  preventedDefault : Bool
  stoppedPropagation : Bool
deriving DecidableEq

def emptyOutput : Output := ⟨[], false, false⟩

/-- addEventListener is idempotent for a fixed handler and event name, so a
listener set is a duplicate-free list of elements. -/
def addListener (l : List Nat) (x : Nat) : List Nat :=
  if l.contains x then l else x :: l

/-- clearTimeout applied to this.tapTimeout: disarm the timer whose id the
field currently holds, leaving the field itself untouched, as the source
does. -/
def clearTimeout (s : TouchSensorState) : TouchSensorState :=
  { s with timers :=
      match s.tapTimeout with
      | none => s.timers
      | some id => s.timers.filter (fun p => p.1 != id) }

/-- Assignment of a fresh setTimeout to this.tapTimeout: arm a new timer
and store its id, overwriting the field; an older timer that is still armed
stays armed, exactly as overwriting the field loses the old id. -/
def setTimeout (s : TouchSensorState) (h : PendingHold) : TouchSensorState :=
  { s with
      tapTimeout := some s.nextTimerId
      timers := s.timers ++ [(s.nextTimerId, h)]
      nextTimerId := s.nextTimerId + 1 }

/-- The lookup event.touches[0] with event.changedTouches[0] as fallback. -/
def firstTouch (e : TouchEvent) : Option Touch :=
  match e.touches.head? with
  | some t => some t
  | none => e.changedTouches.head?

/-- Handler onTouchStart, lines 66-88: find the closest registered
container of the target; if none return unchanged, otherwise prevent the
default action, add the document scroll listener and the container
context-menu suppressor, record the container and its closest scrollable
parent (attaching a scroll listener to the latter when present), and arm
the long-press timer with a closure capturing the event and container. -/
def onTouchStart (w : World) (s : TouchSensorState) (e : TouchEvent) :
    TouchSensorState × Output :=
  match closestIn w.dom e.target w.containers with
  | none => (s, emptyOutput)
  | some container =>
      let scrollable :=
        closestPred w.dom container
          (fun el => decide (w.dom.offsetHeight el < w.dom.scrollHeight el))
      let s1 :=
        { s with
            docScrollListener := true
            contextMenuOn := addListener s.contextMenuOn container
            currentContainer := some container
            currentScrollableParent := scrollable
            scrollOn :=
              match scrollable with
              | some p => addListener s.scrollOn p
              | none => s.scrollOn }
      (setTimeout s1 ⟨e, container⟩, { emptyOutput with preventedDefault := true })

/-- Body of the closure returned by onTouchHold, lines 90-114, run when the
long-press timer fires: read the first touch point (a missing one faults),
build and dispatch the start event, record the container, set dragging to
the negation of the canceled flag, and register the document touchend,
touchcancel and touchmove listeners when dragging. -/
def onTouchHold (w : World) (s : TouchSensorState) (e : TouchEvent)
    (container : Nat) : Option (TouchSensorState × Output) :=
  match firstTouch e with
  | none => none
  | some touch =>
      let dragStartEvent : SensorEvent :=
        { type := .start, clientX := touch.pageX, clientY := touch.pageY,
          target := some e.target, container := some container }
      let canceled := w.cancelsStart dragStartEvent
      let s1 := { s with currentContainer := some container, dragging := !canceled }
      let s2 :=
        if s1.dragging then
          { s1 with docTouchEndListener := true, docTouchCancelListener := true,
                    docTouchMoveListener := true }
        else s1
      some (s2, { emptyOutput with dispatched := [(some container, dragStartEvent)] })

/-- Handler onTouchMove, lines 116-136: ignored unless dragging; otherwise
stop propagation and prevent default, read the first touch point (a missing
one faults), resolve the element under it by subtracting the window scroll
offset from its page coordinates, and dispatch the move event to
currentContainer. -/
def onTouchMove (w : World) (s : TouchSensorState) (e : TouchEvent) :
    Option (TouchSensorState × Output) :=
  if !s.dragging then some (s, emptyOutput)
  else
    match firstTouch e with
    | none => none
    | some touch =>
        let target :=
          w.elementFromPoint (touch.pageX - w.scrollX) (touch.pageY - w.scrollY)
        let dragMoveEvent : SensorEvent :=
          { type := .move, clientX := touch.pageX, clientY := touch.pageY,
            target := target, container := s.currentContainer }
        some (s, { dispatched := [(s.currentContainer, dragMoveEvent)],
                   preventedDefault := true, stoppedPropagation := true })

/-- Handler onTouchEnd, lines 138-178, also bound to touchcancel: return
unchanged unless dragging; remove the document scroll listener; remove the
context-menu suppressor from event.currentTarget (the local variable named
container in the source - since the touchend listener is registered on the
document, currentTarget is the document, not the recorded container);
remove the scrollable-parent scroll listener when one was recorded; clear
the tap timer; re-check dragging; read the first touch point (a missing
one faults); prevent default; dispatch the stop event with a null target
to currentContainer; remove the three document touch listeners and reset
currentContainer and dragging. -/
def onTouchEnd (s : TouchSensorState) (e : TouchEvent) (currentTarget : Nat) :
    Option (TouchSensorState × Output) :=
  if !s.dragging then some (s, emptyOutput)
  else
    let container := currentTarget
    let s1 :=
      clearTimeout
        { s with
            docScrollListener := false
            contextMenuOn := s.contextMenuOn.erase container
            scrollOn :=
              match s.currentScrollableParent with
              | some p => s.scrollOn.erase p
              | none => s.scrollOn }
    if !s1.dragging then some (s1, emptyOutput)
    else
      match firstTouch e with
      | none => none
      | some touch =>
          let dragStopEvent : SensorEvent :=
            { type := .stop, clientX := touch.pageX, clientY := touch.pageY,
              target := none, container := s1.currentContainer }
          some ({ s1 with
                    docTouchEndListener := false
                    docTouchCancelListener := false
                    docTouchMoveListener := false
                    currentContainer := none
                    dragging := false },
                { dispatched := [(s1.currentContainer, dragStopEvent)],
                  preventedDefault := true, stoppedPropagation := false })

/-- Handler onScroll, lines 61-64: cancel the potential drag by clearing
the tap timer; nothing else changes. -/
def onScroll (s : TouchSensorState) : TouchSensorState × Output :=
  (clearTimeout s, emptyOutput)

/-- The document node: attach registers the touchstart listener on it and
the gesture-scoped document listeners hang off it. -/
def document : Nat := 0

/-- Inputs the sensor can receive: native events delivered by the host and
firings of armed timers, a firing naming its timer id. -/
inductive Input
  | touchStart (e : TouchEvent)
  | timerFire (id : Nat)
  | scroll (source : Nat)
  | touchMove (e : TouchEvent)
  | touchEnd (e : TouchEvent)
  | touchCancel (e : TouchEvent)
deriving DecidableEq

def Input.isTouchStart : Input → Bool
  | .touchStart _ => true
  | _ => false

/-- One event-loop step.  An input reaches a handler only through a
listener the sensor currently has registered (touchstart always, through
attach).  Scroll events do not bubble, so a scroll reaches onScroll only
from the document while the document scroll listener is present, or from
an element carrying one.  A timer firing runs its closure only while still
armed.  The currentTarget of a touchend or touchcancel is the document,
where that listener is registered. -/
def step (w : World) (s : TouchSensorState) : Input → Option (TouchSensorState × Output)
  | .touchStart e => some (onTouchStart w s e)
  | .timerFire id =>
      match s.timers.find? (fun p => p.1 == id) with
      | none => some (s, emptyOutput)
      | some (_, h) =>
          onTouchHold w { s with timers := s.timers.filter (fun p => p.1 != id) }
            h.event h.container
  | .scroll source =>
      if (source == document && s.docScrollListener) || s.scrollOn.contains source then
        some (onScroll s)
      else some (s, emptyOutput)
  | .touchMove e =>
      if s.docTouchMoveListener then onTouchMove w s e else some (s, emptyOutput)
  | .touchEnd e =>
      if s.docTouchEndListener then onTouchEnd s e document else some (s, emptyOutput)
  | .touchCancel e =>
      if s.docTouchCancelListener then onTouchEnd s e document else some (s, emptyOutput)

/-- Run a list of inputs in order; a handler fault aborts the run. -/
def run (w : World) : TouchSensorState → List Input → Option (TouchSensorState × List Output)
  | s, [] => some (s, [])
  | s, i :: is =>
      match step w s i with
      | none => none
      | some (s', o) =>
          match run w s' is with
          | none => none
          | some (s'', os) => some (s'', o :: os)

/-- A state with no armed timer, not dragging, and none of the three
gesture-scoped document touch listeners registered: every input other than
a touchstart is then a complete no-op. -/
def Quiescent (s : TouchSensorState) : Prop :=
  s.dragging = false ∧ s.timers = [] ∧ s.docTouchEndListener = false ∧
  s.docTouchCancelListener = false ∧ s.docTouchMoveListener = false

/-- Concrete element tree for witnesses: element n has parent n - 1 down to
the document 0; element 3 is the only scrollable one. -/
def testDom : Dom :=
  ⟨fun el => if el = 0 then none else some (el - 1), 10,
   fun _ => 5, fun el => if el = 3 then 9 else 5⟩

/-- Concrete witness world: one registered container, element 5; no
listener cancels start events. -/
def testWorld : World :=
  ⟨testDom, [5], 100, 2, 3, fun _ _ => some 9, fun _ => false⟩

/-- Same world, but a listener cancels every start event. -/
def testWorldCancel : World :=
  { testWorld with cancelsStart := fun _ => true }

def te1 : TouchEvent := ⟨7, [⟨10, 10⟩], []⟩

def teEnd : TouchEvent := ⟨7, [], [⟨21, 31⟩]⟩

def teEmpty : TouchEvent := ⟨7, [], []⟩

/-- State after a touchstart carrying te1 in testWorld. -/
def pendingState : TouchSensorState := (onTouchStart testWorld initialState te1).1

/-- State after the long-press fires uncanceled from pendingState. -/
def dragState : TouchSensorState :=
  ⟨some 5, some 3, true, some 0, [], 1, true, true, true, true, [5], [3]⟩

/-- A dragging state whose armed closure and touch events carry no touch
points. -/
def faultState : TouchSensorState :=
  ⟨some 5, some 3, true, some 0, [(0, ⟨teEmpty, 5⟩)], 1, true, true, true, true, [5], [3]⟩

/-- The DragStartSensorEvent built by the gesture closure for touchstart
event e whose first touch point is t and whose matched container is c. -/
def dragStartEventFor (e : TouchEvent) (t : Touch) (c : Nat) : SensorEvent :=
  { type := SensorEventType.start, clientX := t.pageX, clientY := t.pageY,
    target := some e.target, container := some c }

/-- The state left behind by a canceled start: the fired timer is gone and
the container recorded, dragging stays false, and nothing else moves. -/
def canceledHoldState (s : TouchSensorState) (c : Nat) : TouchSensorState :=
  { s with timers := [], currentContainer := some c, dragging := false }

theorem clearTimeout_of_timers_nil (s : TouchSensorState) (h : s.timers = []) :
    clearTimeout s = s := by
  obtain ⟨cc, csp, dr, tt, tms, nid, ds, dte, dtc, dtm, cm, so⟩ := s
  simp only at h
  subst h
  cases tt <;> simp [clearTimeout]

theorem quiescent_step (w : World) (s : TouchSensorState) (i : Input)
    (hq : Quiescent s) (hi : i.isTouchStart = false) :
    step w s i = some (s, emptyOutput) := by
  obtain ⟨h1, h2, h3, h4, h5⟩ := hq
  cases i with
  | touchStart e => simp [Input.isTouchStart] at hi
  | timerFire id => simp [step, h2]
  | scroll source =>
      simp only [step]
      split
      · simp [onScroll, clearTimeout_of_timers_nil s h2]
      · rfl
  | touchMove e => simp [step, h5]
  | touchEnd e => simp [step, h3]
  | touchCancel e => simp [step, h4]

theorem quiescent_run (w : World) (s : TouchSensorState) (tr : List Input)
    (hq : Quiescent s) (hns : ∀ i ∈ tr, i.isTouchStart = false) :
    run w s tr = some (s, List.replicate tr.length emptyOutput) := by
  induction tr with
  | nil => simp [run]
  | cons i is ih =>
      have h1 := quiescent_step w s i hq (hns i (by simp))
      have h2 := ih (fun j hj => hns j (by simp [hj]))
      simp [run, h1, h2, List.replicate]

theorem noStart_step (w : World) (s : TouchSensorState) (i : Input)
    (ht : s.timers = []) (hi : i.isTouchStart = false)
    (s' : TouchSensorState) (o : Output)
    (hs : step w s i = some (s', o)) :
    s'.timers = [] ∧ ∀ p ∈ o.dispatched, p.2.type ≠ SensorEventType.start := by
  cases i with
  | touchStart e => simp [Input.isTouchStart] at hi
  | timerFire id =>
      simp [step, ht] at hs
      obtain ⟨rfl, rfl⟩ := hs
      simp [ht, emptyOutput]
  | scroll source =>
      simp only [step] at hs
      split at hs <;> simp at hs <;> obtain ⟨rfl, rfl⟩ := hs
      · cases htt : s.tapTimeout <;> simp [onScroll, clearTimeout, htt, ht, emptyOutput]
      · simp [ht, emptyOutput]
  | touchMove e =>
      simp only [step] at hs
      split at hs
      · simp only [onTouchMove] at hs
        split at hs
        · simp at hs
          obtain ⟨rfl, rfl⟩ := hs
          simp [ht, emptyOutput]
        · cases hft : firstTouch e with
          | none => rw [hft] at hs; simp at hs
          | some t =>
              rw [hft] at hs
              simp at hs
              obtain ⟨rfl, rfl⟩ := hs
              simp [ht]
      · simp at hs
        obtain ⟨rfl, rfl⟩ := hs
        simp [ht, emptyOutput]
  | touchEnd e =>
      simp only [step] at hs
      split at hs
      · simp only [onTouchEnd] at hs
        split at hs
        · simp at hs
          obtain ⟨rfl, rfl⟩ := hs
          simp [ht, emptyOutput]
        · split at hs
          · simp at hs
            obtain ⟨rfl, rfl⟩ := hs
            constructor
            · cases htt : s.tapTimeout <;> simp [clearTimeout, htt, ht]
            · simp [emptyOutput]
          · cases hft : firstTouch e with
            | none => rw [hft] at hs; simp at hs
            | some t =>
                rw [hft] at hs
                simp at hs
                obtain ⟨rfl, rfl⟩ := hs
                constructor
                · cases htt : s.tapTimeout <;> simp [clearTimeout, htt, ht]
                · simp
      · simp at hs
        obtain ⟨rfl, rfl⟩ := hs
        simp [ht, emptyOutput]
  | touchCancel e =>
      simp only [step] at hs
      split at hs
      · simp only [onTouchEnd] at hs
        split at hs
        · simp at hs
          obtain ⟨rfl, rfl⟩ := hs
          simp [ht, emptyOutput]
        · split at hs
          · simp at hs
            obtain ⟨rfl, rfl⟩ := hs
            constructor
            · cases htt : s.tapTimeout <;> simp [clearTimeout, htt, ht]
            · simp [emptyOutput]
          · cases hft : firstTouch e with
            | none => rw [hft] at hs; simp at hs
            | some t =>
                rw [hft] at hs
                simp at hs
                obtain ⟨rfl, rfl⟩ := hs
                constructor
                · cases htt : s.tapTimeout <;> simp [clearTimeout, htt, ht]
                · simp
      · simp at hs
        obtain ⟨rfl, rfl⟩ := hs
        simp [ht, emptyOutput]

theorem noStart_run (w : World) (s : TouchSensorState) (tr : List Input)
    (ht : s.timers = []) (hns : ∀ i ∈ tr, i.isTouchStart = false) :
    ∀ s' outs, run w s tr = some (s', outs) →
      ∀ o ∈ outs, ∀ p ∈ o.dispatched, p.2.type ≠ SensorEventType.start := by
  induction tr generalizing s with
  | nil =>
      intro s' outs h
      simp [run] at h
      obtain ⟨rfl, rfl⟩ := h
      simp
  | cons i is ih =>
      intro s' outs h
      simp only [run] at h
      cases hst : step w s i with
      | none => rw [hst] at h; simp at h
      | some p =>
          obtain ⟨s1, o1⟩ := p
          rw [hst] at h
          cases hr : run w s1 is with
          | none => simp [hr] at h
          | some q =>
              obtain ⟨s2, os⟩ := q
              simp [hr] at h
              obtain ⟨rfl, rfl⟩ := h
              have hstep := noStart_step w s i ht (hns i (by simp)) s1 o1 hst
              intro o ho
              rcases List.mem_cons.mp ho with rfl | ho'
              · exact hstep.2
              · exact ih s1 hstep.1 (fun j hj => hns j (by simp [hj])) s2 os hr o ho'

theorem onTouchEnd_dragging (s : TouchSensorState) (e : TouchEvent) (ct : Nat)
    (t : Touch) (hd : s.dragging = true) (ht : firstTouch e = some t) :
    onTouchEnd s e ct =
      some ({ s with
                docScrollListener := false
                contextMenuOn := s.contextMenuOn.erase ct
                scrollOn :=
                  match s.currentScrollableParent with
                  | some p => s.scrollOn.erase p
                  | none => s.scrollOn
                timers :=
                  match s.tapTimeout with
                  | none => s.timers
                  | some id => s.timers.filter (fun p => p.1 != id)
                docTouchEndListener := false
                docTouchCancelListener := false
                docTouchMoveListener := false
                currentContainer := none
                dragging := false },
            { dispatched := [(s.currentContainer,
                { type := SensorEventType.stop, clientX := t.pageX, clientY := t.pageY,
                  target := none, container := s.currentContainer })],
              preventedDefault := true, stoppedPropagation := false }) := by
  obtain ⟨cc, csp, dr, tt, tms, nid, ds, dte, dtc, dtm, cm, so⟩ := s
  simp only at hd
  subst hd
  simp only [onTouchEnd, clearTimeout, ht]
  rfl

/-- C7: a touchstart whose target has no registered container among its
ancestors is ignored completely: the state is unchanged, nothing is
dispatched, no listener is added, no timer is armed, and the default
action is not prevented. -/
theorem c7_touchstart_no_container (w : World) (s : TouchSensorState)
    (e : TouchEvent) (h : closestIn w.dom e.target w.containers = none) :
    step w s (Input.touchStart e) = some (s, emptyOutput) := by
  simp [step, onTouchStart, h]

theorem c7_touchstart_no_container_witness :
    step testWorld initialState (Input.touchStart ⟨3, [⟨1, 1⟩], []⟩) =
      some (initialState, emptyOutput) :=
  c7_touchstart_no_container testWorld initialState ⟨3, [⟨1, 1⟩], []⟩ (by decide)

/-- C6: a scroll event delivered to one of the sensor's scroll listeners
changes only the armed timers, disarming the one tapTimeout names; every
other piece of state - the recorded container and scrollable parent, the
dragging flag, the tapTimeout field itself, and all listener registrations -
is untouched, and nothing is dispatched. -/
theorem c6_scroll_only_clears_timer (w : World) (s : TouchSensorState) (source : Nat)
    (hdel : ((source == document && s.docScrollListener) || s.scrollOn.contains source) = true) :
    step w s (Input.scroll source) = some (clearTimeout s, emptyOutput) ∧
    (clearTimeout s).currentContainer = s.currentContainer ∧
    (clearTimeout s).currentScrollableParent = s.currentScrollableParent ∧
    (clearTimeout s).dragging = s.dragging ∧
    (clearTimeout s).tapTimeout = s.tapTimeout ∧
    (clearTimeout s).docScrollListener = s.docScrollListener ∧
    (clearTimeout s).docTouchEndListener = s.docTouchEndListener ∧
    (clearTimeout s).docTouchCancelListener = s.docTouchCancelListener ∧
    (clearTimeout s).docTouchMoveListener = s.docTouchMoveListener ∧
    (clearTimeout s).contextMenuOn = s.contextMenuOn ∧
    (clearTimeout s).scrollOn = s.scrollOn ∧
    (∀ id, s.tapTimeout = some id → ∀ p ∈ (clearTimeout s).timers, p.1 ≠ id) := by
  refine ⟨?_, rfl, rfl, rfl, rfl, rfl, rfl, rfl, rfl, rfl, rfl, ?_⟩
  · simp only [step]
    rw [if_pos hdel]
    rfl
  intro id hid p hp
  simp only [clearTimeout, hid] at hp
  have := List.of_mem_filter hp
  simpa using this

theorem c6_scroll_only_clears_timer_witness :
    step testWorld pendingState (Input.scroll 0) =
        some (clearTimeout pendingState, emptyOutput) ∧
    (clearTimeout pendingState).currentContainer = pendingState.currentContainer ∧
    (clearTimeout pendingState).currentScrollableParent = pendingState.currentScrollableParent ∧
    (clearTimeout pendingState).dragging = pendingState.dragging ∧
    (clearTimeout pendingState).tapTimeout = pendingState.tapTimeout ∧
    (clearTimeout pendingState).docScrollListener = pendingState.docScrollListener ∧
    (clearTimeout pendingState).docTouchEndListener = pendingState.docTouchEndListener ∧
    (clearTimeout pendingState).docTouchCancelListener = pendingState.docTouchCancelListener ∧
    (clearTimeout pendingState).docTouchMoveListener = pendingState.docTouchMoveListener ∧
    (clearTimeout pendingState).contextMenuOn = pendingState.contextMenuOn ∧
    (clearTimeout pendingState).scrollOn = pendingState.scrollOn ∧
    (∀ id, pendingState.tapTimeout = some id →
      ∀ p ∈ (clearTimeout pendingState).timers, p.1 ≠ id) :=
  c6_scroll_only_clears_timer testWorld pendingState 0 (by decide)

/-- C8: a touchmove while dragging dispatches exactly one move event to
currentContainer, carrying the page coordinates of the first active touch
point and, as target, the result of elementFromPoint at those coordinates
minus the window scroll offset; when the active touch list is empty the
lookup falls back to the first changed touch. -/
theorem c8_move_event (w : World) (s : TouchSensorState) (e : TouchEvent)
    (t : Touch) (hl : s.docTouchMoveListener = true) (hd : s.dragging = true)
    (ht : firstTouch e = some t) :
    step w s (Input.touchMove e) =
      some (s,
        { dispatched := [(s.currentContainer,
            { type := SensorEventType.move, clientX := t.pageX, clientY := t.pageY,
              target := w.elementFromPoint (t.pageX - w.scrollX) (t.pageY - w.scrollY),
              container := s.currentContainer })],
          preventedDefault := true, stoppedPropagation := true }) ∧
    (e.touches = [] → firstTouch e = e.changedTouches.head?) := by
  constructor
  · simp [step, hl, onTouchMove, hd, ht]
  · intro h
    simp [firstTouch, h]

theorem c8_move_event_witness :
    step testWorld dragState (Input.touchMove teEnd) =
      some (dragState,
        { dispatched := [(dragState.currentContainer,
            { type := SensorEventType.move, clientX := (21 : Int), clientY := (31 : Int),
              target := testWorld.elementFromPoint ((21 : Int) - testWorld.scrollX)
                ((31 : Int) - testWorld.scrollY),
              container := dragState.currentContainer })],
          preventedDefault := true, stoppedPropagation := true }) ∧
    (teEnd.touches = [] → firstTouch teEnd = teEnd.changedTouches.head?) :=
  c8_move_event testWorld dragState teEnd ⟨21, 31⟩ (by decide) (by decide) (by decide)

/-- C2: after a full uncanceled gesture - touchstart inside container 5,
long-press firing, touchend - the document scroll listener is removed and
the scroll listener on the recorded scrollable ancestor is removed, but
the context-menu suppressor is still attached to container 5: the handler
removes it from event.currentTarget, which is the document the touchend
listener is registered on, not from the recorded container. -/
theorem c2_contextmenu_left_on_container :
    (run testWorld initialState
        [Input.touchStart te1, Input.timerFire 0, Input.touchEnd teEnd]).map
      (fun r => (r.1.docScrollListener, r.1.scrollOn, r.1.contextMenuOn)) =
      some (false, [], [5]) := by
  decide

/-- C3 counterexample: after the same full uncanceled gesture the field
currentScrollableParent still holds element 3 - it is not reset at gesture
end, refuting the claim that every mutable instance field is reset. -/
theorem c3_scrollable_parent_not_reset :
    (run testWorld initialState
        [Input.touchStart te1, Input.timerFire 0, Input.touchEnd teEnd]).map
      (fun r => r.1.currentScrollableParent) = some (some 3) ∧
    some (3 : Nat) ≠ (none : Option Nat) := by
  decide

/-- C3 amended: on a touchend while dragging, currentContainer is reset to
none, dragging to false and the timer named by tapTimeout is disarmed, but
currentScrollableParent is not reset and keeps its recorded value. -/
theorem c3_reset_except_scrollable_parent (w : World) (s : TouchSensorState)
    (e : TouchEvent) (t : Touch)
    (hl : s.docTouchEndListener = true) (hd : s.dragging = true)
    (ht : firstTouch e = some t) :
    ∃ s' o, step w s (Input.touchEnd e) = some (s', o) ∧
      s'.currentContainer = none ∧ s'.dragging = false ∧
      (∀ id, s.tapTimeout = some id → ∀ p ∈ s'.timers, p.1 ≠ id) ∧
      s'.currentScrollableParent = s.currentScrollableParent := by
  have hend := onTouchEnd_dragging s e document t hd ht
  have hstep : step w s (Input.touchEnd e) = onTouchEnd s e document := by
    simp [step, hl]
  rw [hend] at hstep
  refine ⟨_, _, hstep, rfl, rfl, ?_, rfl⟩
  intro id hid p hp
  simp only [hid] at hp
  have := List.of_mem_filter hp
  simpa using this

theorem c3_reset_except_scrollable_parent_witness :
    ∃ s' o, step testWorld dragState (Input.touchEnd teEnd) = some (s', o) ∧
      s'.currentContainer = none ∧ s'.dragging = false ∧
      (∀ id, dragState.tapTimeout = some id → ∀ p ∈ s'.timers, p.1 ≠ id) ∧
      s'.currentScrollableParent = dragState.currentScrollableParent :=
  c3_reset_except_scrollable_parent testWorld dragState teEnd ⟨21, 31⟩
    (by decide) (by decide) (by decide)

/-- C5: while a gesture is pending - its long-press timer is the only armed
one and tapTimeout names it - a scroll event delivered to any of the
sensor's scroll listeners disarms that timer, and in every later input
sequence free of new touchstarts no start event is ever dispatched. -/
theorem c5_scroll_cancels_pending (w : World) (s : TouchSensorState)
    (source id : Nat) (hld : PendingHold)
    (htt : s.tapTimeout = some id)
    (hp : s.timers = [(id, hld)])
    (hdel : ((source == document && s.docScrollListener) || s.scrollOn.contains source) = true) :
    step w s (Input.scroll source) = some ({ s with timers := [] }, emptyOutput) ∧
    ∀ tr, (∀ i ∈ tr, i.isTouchStart = false) →
      ∀ s' outs, run w { s with timers := [] } tr = some (s', outs) →
        ∀ o ∈ outs, ∀ p ∈ o.dispatched, p.2.type ≠ SensorEventType.start := by
  constructor
  · simp only [step]
    rw [if_pos hdel]
    simp [onScroll, clearTimeout, htt, hp]
  · intro tr hns s' outs hr
    exact noStart_run w { s with timers := [] } tr rfl hns s' outs hr

theorem c5_scroll_cancels_pending_witness :
    step testWorld pendingState (Input.scroll 3) =
        some ({ pendingState with timers := [] }, emptyOutput) ∧
    ∀ tr, (∀ i ∈ tr, i.isTouchStart = false) →
      ∀ s' outs, run testWorld { pendingState with timers := [] } tr = some (s', outs) →
        ∀ o ∈ outs, ∀ p ∈ o.dispatched, p.2.type ≠ SensorEventType.start :=
  c5_scroll_cancels_pending testWorld pendingState 3 0 ⟨te1, 5⟩
    (by decide) (by decide) (by decide)

/-- C1: when the only armed timer holds the gesture closure and no listener
cancels the start event, the firing enters dragging with the container
recorded; the first touchend processed while dragging (touchcancel routes
to the very same handler call) dispatches exactly one stop event, to the
recorded container and with a null target, and leaves a state in which the
touch listeners are removed and dragging is false, so any further inputs
without a new touchstart dispatch nothing at all. -/
theorem c1_single_stop (w : World) (s : TouchSensorState) (e ev : TouchEvent)
    (c id : Nat) (t t' : Touch)
    (hp : s.timers = [(id, ⟨e, c⟩)])
    (ht : firstTouch e = some t)
    (hnc : w.cancelsStart (dragStartEventFor e t c) = false)
    (ht' : firstTouch ev = some t') :
    ∃ s1 o1, step w s (Input.timerFire id) = some (s1, o1) ∧
      s1.dragging = true ∧ s1.currentContainer = some c ∧
      step w s1 (Input.touchCancel ev) = step w s1 (Input.touchEnd ev) ∧
      ∃ s2 o2, step w s1 (Input.touchEnd ev) = some (s2, o2) ∧
        o2.dispatched = [(some c,
          { type := SensorEventType.stop, clientX := t'.pageX, clientY := t'.pageY,
            target := none, container := some c })] ∧
        s2.dragging = false ∧ s2.docTouchEndListener = false ∧
        s2.docTouchCancelListener = false ∧ s2.docTouchMoveListener = false ∧
        ∀ tr, (∀ i ∈ tr, i.isTouchStart = false) →
          run w s2 tr = some (s2, List.replicate tr.length emptyOutput) := by
  obtain ⟨cc, csp, dr, tt, tms, nid, ds, dte, dtc, dtm, cm, so⟩ := s
  simp only at hp
  subst hp
  simp only [dragStartEventFor] at hnc
  have hfire : step w ⟨cc, csp, dr, tt, [(id, ⟨e, c⟩)], nid, ds, dte, dtc, dtm, cm, so⟩
      (Input.timerFire id) =
      some (⟨some c, csp, true, tt, [], nid, ds, true, true, true, cm, so⟩,
        { emptyOutput with dispatched := [(some c,
            { type := SensorEventType.start, clientX := t.pageX, clientY := t.pageY,
              target := some e.target, container := some c })] }) := by
    simp [step, onTouchHold, ht, hnc, List.find?]
  refine ⟨_, _, hfire, rfl, rfl, by simp [step], ?_⟩
  have hende := onTouchEnd_dragging
    ⟨some c, csp, true, tt, [], nid, ds, true, true, true, cm, so⟩ ev document t' rfl ht'
  have hstep2 : step w ⟨some c, csp, true, tt, [], nid, ds, true, true, true, cm, so⟩
      (Input.touchEnd ev) =
      onTouchEnd ⟨some c, csp, true, tt, [], nid, ds, true, true, true, cm, so⟩ ev document := by
    simp [step]
  refine ⟨_, _, hstep2.trans hende, rfl, rfl, rfl, rfl, rfl, ?_⟩
  intro tr hns
  refine quiescent_run w _ tr ⟨rfl, ?_, rfl, rfl, rfl⟩ hns
  cases tt <;> simp

theorem c1_single_stop_witness :
    ∃ s1 o1, step testWorld pendingState (Input.timerFire 0) = some (s1, o1) ∧
      s1.dragging = true ∧ s1.currentContainer = some 5 ∧
      step testWorld s1 (Input.touchCancel teEnd) = step testWorld s1 (Input.touchEnd teEnd) ∧
      ∃ s2 o2, step testWorld s1 (Input.touchEnd teEnd) = some (s2, o2) ∧
        o2.dispatched = [(some 5,
          { type := SensorEventType.stop, clientX := (21 : Int), clientY := (31 : Int),
            target := none, container := some 5 })] ∧
        s2.dragging = false ∧ s2.docTouchEndListener = false ∧
        s2.docTouchCancelListener = false ∧ s2.docTouchMoveListener = false ∧
        ∀ tr, (∀ i ∈ tr, i.isTouchStart = false) →
          run testWorld s2 tr = some (s2, List.replicate tr.length emptyOutput) :=
  c1_single_stop testWorld pendingState te1 teEnd 5 0 ⟨10, 10⟩ ⟨21, 31⟩
    (by decide) (by decide) (by decide) (by decide)

/-- C4: when the armed gesture closure fires and a listener cancels the
start event, dragging is set to false, the container stays recorded, the
gesture-scoped touch listeners are never registered, and in every later
input sequence free of new touchstarts nothing further is dispatched - in
particular no move and no stop event - while the state stays fixed. -/
theorem c4_canceled_start (w : World) (s : TouchSensorState) (e : TouchEvent)
    (c id : Nat) (t : Touch)
    (hp : s.timers = [(id, ⟨e, c⟩)])
    (ht : firstTouch e = some t)
    (hl1 : s.docTouchEndListener = false) (hl2 : s.docTouchCancelListener = false)
    (hl3 : s.docTouchMoveListener = false)
    (hc : w.cancelsStart (dragStartEventFor e t c) = true) :
    ∃ o1, step w s (Input.timerFire id) = some (canceledHoldState s c, o1) ∧
      (canceledHoldState s c).dragging = false ∧
      (canceledHoldState s c).currentContainer = some c ∧
      ∀ tr, (∀ i ∈ tr, i.isTouchStart = false) →
        run w (canceledHoldState s c) tr =
          some (canceledHoldState s c, List.replicate tr.length emptyOutput) := by
  obtain ⟨cc, csp, dr, tt, tms, nid, ds, dte, dtc, dtm, cm, so⟩ := s
  simp only at hp hl1 hl2 hl3
  subst hp; subst hl1; subst hl2; subst hl3
  simp only [dragStartEventFor] at hc
  refine ⟨{ emptyOutput with dispatched := [(some c,
      { type := SensorEventType.start, clientX := t.pageX, clientY := t.pageY,
        target := some e.target, container := some c })] }, ?_, rfl, rfl, ?_⟩
  · simp [step, onTouchHold, ht, hc, List.find?, canceledHoldState]
  · intro tr hns
    exact quiescent_run w _ tr ⟨rfl, rfl, rfl, rfl, rfl⟩ hns

theorem c4_canceled_start_witness :
    ∃ o1, step testWorldCancel pendingState (Input.timerFire 0) =
        some (canceledHoldState pendingState 5, o1) ∧
      (canceledHoldState pendingState 5).dragging = false ∧
      (canceledHoldState pendingState 5).currentContainer = some 5 ∧
      ∀ tr, (∀ i ∈ tr, i.isTouchStart = false) →
        run testWorldCancel (canceledHoldState pendingState 5) tr =
          some (canceledHoldState pendingState 5, List.replicate tr.length emptyOutput) :=
  c4_canceled_start testWorldCancel pendingState te1 5 0 ⟨10, 10⟩
    (by decide) (by decide) (by decide) (by decide) (by decide) (by decide)

/-- C10: when the start event of a gesture is canceled, the firing leaves
the three gesture-scoped touch listeners unregistered while the document
scroll listener, the context-menu suppressors, the scrollable-parent
scroll listeners and the recorded container and scrollable parent all
persist; the end handler called on any non-dragging state returns
immediately without change; and every later input sequence free of new
touchstarts leaves the state fixed and dispatches nothing. -/
theorem c10_canceled_no_cleanup (w : World) (s : TouchSensorState) (e : TouchEvent)
    (c id : Nat) (t : Touch)
    (hp : s.timers = [(id, ⟨e, c⟩)])
    (ht : firstTouch e = some t)
    (hl1 : s.docTouchEndListener = false) (hl2 : s.docTouchCancelListener = false)
    (hl3 : s.docTouchMoveListener = false)
    (hc : w.cancelsStart (dragStartEventFor e t c) = true) :
    ∃ o1, step w s (Input.timerFire id) = some (canceledHoldState s c, o1) ∧
      (canceledHoldState s c).docTouchEndListener = false ∧
      (canceledHoldState s c).docTouchCancelListener = false ∧
      (canceledHoldState s c).docTouchMoveListener = false ∧
      (canceledHoldState s c).docScrollListener = s.docScrollListener ∧
      (canceledHoldState s c).contextMenuOn = s.contextMenuOn ∧
      (canceledHoldState s c).scrollOn = s.scrollOn ∧
      (canceledHoldState s c).currentScrollableParent = s.currentScrollableParent ∧
      (canceledHoldState s c).currentContainer = some c ∧
      (∀ s2 : TouchSensorState, ∀ ev : TouchEvent, ∀ ct : Nat, s2.dragging = false →
        onTouchEnd s2 ev ct = some (s2, emptyOutput)) ∧
      ∀ tr, (∀ i ∈ tr, i.isTouchStart = false) →
        run w (canceledHoldState s c) tr =
          some (canceledHoldState s c, List.replicate tr.length emptyOutput) := by
  obtain ⟨cc, csp, dr, tt, tms, nid, ds, dte, dtc, dtm, cm, so⟩ := s
  simp only at hp hl1 hl2 hl3
  subst hp; subst hl1; subst hl2; subst hl3
  simp only [dragStartEventFor] at hc
  refine ⟨{ emptyOutput with dispatched := [(some c,
      { type := SensorEventType.start, clientX := t.pageX, clientY := t.pageY,
        target := some e.target, container := some c })] },
    ?_, rfl, rfl, rfl, rfl, rfl, rfl, rfl, rfl, ?_, ?_⟩
  · simp [step, onTouchHold, ht, hc, List.find?, canceledHoldState]
  · intro s2 ev ct hd2
    simp [onTouchEnd, hd2]
  · intro tr hns
    exact quiescent_run w _ tr ⟨rfl, rfl, rfl, rfl, rfl⟩ hns

theorem c10_canceled_no_cleanup_witness :
    ∃ o1, step testWorldCancel pendingState (Input.timerFire 0) =
        some (canceledHoldState pendingState 5, o1) ∧
      (canceledHoldState pendingState 5).docTouchEndListener = false ∧
      (canceledHoldState pendingState 5).docTouchCancelListener = false ∧
      (canceledHoldState pendingState 5).docTouchMoveListener = false ∧
      (canceledHoldState pendingState 5).docScrollListener = pendingState.docScrollListener ∧
      (canceledHoldState pendingState 5).contextMenuOn = pendingState.contextMenuOn ∧
      (canceledHoldState pendingState 5).scrollOn = pendingState.scrollOn ∧
      (canceledHoldState pendingState 5).currentScrollableParent =
        pendingState.currentScrollableParent ∧
      (canceledHoldState pendingState 5).currentContainer = some 5 ∧
      (∀ s2 : TouchSensorState, ∀ ev : TouchEvent, ∀ ct : Nat, s2.dragging = false →
        onTouchEnd s2 ev ct = some (s2, emptyOutput)) ∧
      ∀ tr, (∀ i ∈ tr, i.isTouchStart = false) →
        run testWorldCancel (canceledHoldState pendingState 5) tr =
          some (canceledHoldState pendingState 5, List.replicate tr.length emptyOutput) :=
  c10_canceled_no_cleanup testWorldCancel pendingState te1 5 0 ⟨10, 10⟩
    (by decide) (by decide) (by decide) (by decide) (by decide) (by decide)

/-- C9: when both touch lists of an event are empty the first-touch lookup
yields none and each of the three handlers that read it faults - the armed
gesture closure at timer firing, touchmove while dragging, and touchend
while dragging; when at least one touch point is present in either list
the lookup succeeds. -/
theorem c9_empty_touch_faults (w : World) (s : TouchSensorState)
    (e : TouchEvent) (c id : Nat)
    (he : e.touches = [] ∧ e.changedTouches = []) :
    firstTouch e = none ∧
    (s.timers.find? (fun p => p.1 == id) = some (id, ⟨e, c⟩) →
      step w s (Input.timerFire id) = none) ∧
    (s.dragging = true → s.docTouchMoveListener = true →
      step w s (Input.touchMove e) = none) ∧
    (s.dragging = true → s.docTouchEndListener = true →
      step w s (Input.touchEnd e) = none) ∧
    (∀ e' : TouchEvent, e'.touches = [] → e'.changedTouches ≠ [] →
      (firstTouch e').isSome = true) ∧
    (∀ e' : TouchEvent, e'.touches ≠ [] → (firstTouch e').isSome = true) := by
  obtain ⟨h1, h2⟩ := he
  have hft : firstTouch e = none := by simp [firstTouch, h1, h2]
  refine ⟨hft, ?_, ?_, ?_, ?_, ?_⟩
  · intro hf
    simp [step, hf, onTouchHold, hft]
  · intro hd hl
    simp [step, hl, onTouchMove, hd, hft]
  · intro hd hl
    simp [step, hl, onTouchEnd, hd, hft, clearTimeout]
  · intro e' h1' h2'
    cases hc' : e'.changedTouches with
    | nil => exact absurd hc' h2'
    | cons a l => simp [firstTouch, h1', hc']
  · intro e' h1'
    cases ht' : e'.touches with
    | nil => exact absurd ht' h1'
    | cons a l => simp [firstTouch, ht']

theorem c9_empty_touch_faults_witness :
    firstTouch teEmpty = none ∧
    (faultState.timers.find? (fun p => p.1 == 0) = some (0, ⟨teEmpty, 5⟩) →
      step testWorld faultState (Input.timerFire 0) = none) ∧
    (faultState.dragging = true → faultState.docTouchMoveListener = true →
      step testWorld faultState (Input.touchMove teEmpty) = none) ∧
    (faultState.dragging = true → faultState.docTouchEndListener = true →
      step testWorld faultState (Input.touchEnd teEmpty) = none) ∧
    (∀ e' : TouchEvent, e'.touches = [] → e'.changedTouches ≠ [] →
      (firstTouch e').isSome = true) ∧
    (∀ e' : TouchEvent, e'.touches ≠ [] → (firstTouch e').isSome = true) :=
  c9_empty_touch_faults testWorld faultState teEmpty 5 0 (by decide)

end Draggable
